import Mathlib

/-!
Verification of the b-tel-bot repository (src/p2p_fetcher.py, src/main.py).

The Python program polls a marketplace order book, filters sell listings by a
price threshold, ranks listings by price, and renders notification messages.
This file gives a shallow embedding of that code and proves the behavioural
claims about it.

Modelling conventions:
* Python dictionaries coming from JSON are embedded as structures whose fields
  are `Option`-valued (`none` models an absent key).
* Python `float` values are embedded as `ℚ`; `float(s)` on a plain decimal
  string (optional sign, digits, optional fractional part) is embedded by
  `parseFloat`, which returns `none` where the Python call raises
  `ValueError`.  Numbers are rendered into messages with `ℚ`'s `toString`.
* Python exceptions are embedded with `Except`: a function that can raise
  returns `Except PyException _`, and a `try/except` block is a `match` on
  that value.
* The network layer (aiohttp, the Telegram client) is embedded by passing the
  outcome of the call as an argument.
-/

namespace BTelBot

/-! ## Data model: listings as returned by the marketplace -/

/-- The `advertiser` sub-record of a listing (`ad["advertiser"]`). -/
structure Advertiser where
  nickName : Option String
  userNo : Option String
  deriving DecidableEq, Repr

/-- The `adv` sub-record of a listing (`ad["adv"]`), holding the price and
trade bounds as decimal strings; any field may be absent. -/
structure Adv where
  price : Option String
  surplusAmount : Option String
  minSingleTransAmount : Option String
  maxSingleTransAmount : Option String
  deriving DecidableEq, Repr

/-- One listing record from the marketplace response; the `adv` or
`advertiser` sub-record may itself be absent. -/
structure Listing where
  adv : Option Adv
  advertiser : Option Advertiser
  deriving DecidableEq, Repr

/-- The empty dictionary `{}` used as default in `ad.get("adv", {})`. -/
def Adv.empty : Adv := ⟨none, none, none, none⟩

/-- The empty dictionary `{}` used as default in `ad.get("advertiser", {})`. -/
def Advertiser.empty : Advertiser := ⟨none, none⟩

/-- `ad.get("adv", {})`. -/
def advOf (ad : Listing) : Adv := ad.adv.getD Adv.empty

/-- `ad.get("advertiser", {})`. -/
def advertiserOf (ad : Listing) : Advertiser := ad.advertiser.getD Advertiser.empty

/-! ## Python numeric string parsing

`parseFloat` embeds `float(s)` on plain decimal strings: an optional sign,
then digits with an optional single decimal point, at least one digit
overall.  `parseInt` embeds `int(s)`: an optional sign followed by at least
one digit.  Both return `none` where Python raises `ValueError`. -/

/-- Numeric value of a digit run (most significant first). -/
def natOfDigits (l : List Char) : ℕ :=
  l.foldl (fun a c => a * 10 + (c.toNat - 48)) 0

/-- All characters are decimal digits. -/
def allDigits (l : List Char) : Bool := l.all Char.isDigit

/-- Parse an unsigned decimal string (digits with an optional single point)
to a rational, `none` on malformed input. -/
def parseUnsigned (l : List Char) : Option ℚ :=
  let ip := l.takeWhile (fun c => c ≠ '.')
  match l.dropWhile (fun c => c ≠ '.') with
  | [] =>
      if ip ≠ [] ∧ allDigits ip then some (natOfDigits ip) else none
  | _ :: fp =>
      if (ip ≠ [] ∨ fp ≠ []) ∧ allDigits ip ∧ allDigits fp then
        some ((natOfDigits ip : ℚ) + (natOfDigits fp : ℚ) / (10 : ℚ) ^ fp.length)
      else none

/-- `float(s)` on a plain decimal string; `none` models `ValueError`. -/
def parseFloat (s : String) : Option ℚ :=
  match s.toList with
  | '-' :: rest => (parseUnsigned rest).map (fun q => -q)
  | '+' :: rest => parseUnsigned rest
  | l => parseUnsigned l

/-- `int(s)` on a plain decimal integer string; `none` models `ValueError`. -/
def parseInt (s : String) : Option ℤ :=
  match s.toList with
  | '-' :: rest => if rest ≠ [] ∧ allDigits rest then some (-(natOfDigits rest : ℤ)) else none
  | '+' :: rest => if rest ≠ [] ∧ allDigits rest then some (natOfDigits rest : ℤ) else none
  | l => if l ≠ [] ∧ allDigits l then some (natOfDigits l : ℤ) else none

/-- `s.replace(',', '')` as used by the `/top5` argument parser. -/
def stripCommas (s : String) : String :=
  String.mk (s.toList.filter (fun c => c ≠ ','))

/-! ## Exceptions -/

/-- The Python exceptions that can cross the boundaries modelled here.
`clientError` stands for an `aiohttp` network error, `decodeError` for the
client library's JSON-decode error, `valueError` for `ValueError`,
`deliveryError` for a Telegram send failure.  `upstreamError` is modelled
from the spec: the spec's error taxonomy names an `UpstreamError` class, but
no such class exists anywhere in the source; the constructor exists only so
that theorems can compare the code's behaviour against the spec's claim. -/
inductive PyException where
  | clientError
  | decodeError
  | valueError
  | deliveryError
  | upstreamError
  deriving DecidableEq, Repr

/-! ## p2p_fetcher.py: fetch_binance_p2p

`fetch_binance_p2p` posts to the search endpoint and runs
`data = await resp.json(); return data.get("data", [])` with no `try` block
of its own.  The network call is embedded as a `SessionOutcome` argument. -/

/-- The JSON envelope of the marketplace response: the code only reads its
`data` field (`data.get("data", [])`). -/
structure Envelope where
  data : Option (List Listing)
  deriving DecidableEq

/-- An HTTP response: its status code and its body as parsed JSON
(`none` when `resp.json()` fails to decode the body). -/
structure HttpResponse where
  status : ℕ
  jsonBody : Option Envelope
  deriving DecidableEq

/-- Outcome of `session.post(...)`: either the HTTP layer raised, or a
response (of any status code) came back. -/
inductive SessionOutcome where
  | failure (e : PyException)
  | response (r : HttpResponse)
  deriving DecidableEq

/-- `fetch_binance_p2p` (p2p_fetcher.py lines 7-20): no exception is caught
or wrapped — an HTTP-layer error propagates raw, a JSON-decode failure
raises the client library's decode error, and otherwise the `data` field of
the envelope (default `[]`) is returned whatever the status code. -/
def fetch_binance_p2p : SessionOutcome → Except PyException (List Listing)
  | .failure e => .error e
  | .response r =>
      match r.jsonBody with
      | none => .error .decodeError
      | some body => .ok (body.data.getD [])

/-! ## p2p_fetcher.py: get_top_sellers_under_threshold

The filtering loop (lines 25-38).  For each `ad`: read
`ad.get("adv", {}).get("price")`; a falsy value (absent key or empty
string) skips the listing; `float` failure (`ValueError`) hits `continue`,
which also skips the `if len(filtered_ads) == limit: break` check; a parsed
price `<= threshold` appends the listing; the loop breaks once the result
length equals `limit`. -/

/-- The loop body of `get_top_sellers_under_threshold`, with `acc` the
`filtered_ads` accumulator. -/
def filterLoop (threshold : ℚ) (limit : ℕ) (acc : List Listing) :
    List Listing → List Listing
  | [] => acc
  | ad :: rest =>
      match (advOf ad).price with
      | none =>
          if acc.length = limit then acc else filterLoop threshold limit acc rest
      | some s =>
          if s = "" then
            if acc.length = limit then acc else filterLoop threshold limit acc rest
          else
            match parseFloat s with
            | none => filterLoop threshold limit acc rest
            | some p =>
                let acc' := if p ≤ threshold then acc ++ [ad] else acc
                if acc'.length = limit then acc' else filterLoop threshold limit acc' rest

/-- `get_top_sellers_under_threshold` with the network fetch factored out:
the function is applied to the listing sequence the fetch returned. -/
def get_top_sellers_under_threshold (ads : List Listing) (threshold : ℚ)
    (limit : ℕ := 5) : List Listing :=
  filterLoop threshold limit [] ads

/-- A listing qualifies for the threshold filter when its price string is
present, non-empty, parses, and the parsed price is at most the threshold —
the exact branch structure of the loop body. -/
def qualifies (threshold : ℚ) (ad : Listing) : Bool :=
  match (advOf ad).price with
  | none => false
  | some s =>
      if s = "" then false
      else
        match parseFloat s with
        | none => false
        | some p => decide (p ≤ threshold)

/-- A listing is malformed when its `adv` sub-record is missing, its price
field is absent or empty, or its price string fails to parse. -/
def malformedListing (ad : Listing) : Bool :=
  match (advOf ad).price with
  | none => true
  | some s => s == "" || (parseFloat s).isNone

/-! ## main.py: the ranking step of format_and_send_top_prices

Lines 72-74 of main.py:
`sorted_sellers = sorted(sellers, key=lambda x: float(x.get("adv", {}).get("price", 0)), reverse=True)`
`top_sellers = sorted_sellers[:count]`
The key function defaults a *missing* price key to the integer `0`
(`float(0)` succeeds), but a present, unparsable price string makes
`float` raise `ValueError`, which propagates out of `sorted`.  Python's
`sorted` is stable also under `reverse=True`; any stable sort of the same
keys yields the identical list, so the sort is embedded as a stable
descending insertion sort. -/

/-- The sort key `float(x.get("adv", {}).get("price", 0))`:
`Except.error` models the `ValueError` raised on an unparsable price. -/
def rankKey (ad : Listing) : Except PyException ℚ :=
  match (advOf ad).price with
  | none => .ok 0
  | some s =>
      match parseFloat s with
      | none => .error .valueError
      | some p => .ok p

/-- The key value used while sorting (on the non-raising path it agrees
with `rankKey`). -/
def key0 (ad : Listing) : ℚ :=
  match rankKey ad with
  | .ok p => p
  | .error _ => 0

/-- Stable descending insertion: `x` is placed before the first element
whose key is at most `key0 x`, hence after earlier elements with an equal
key. -/
def insertDesc (x : Listing) : List Listing → List Listing
  | [] => [x]
  | y :: ys => if key0 y ≤ key0 x then x :: y :: ys else y :: insertDesc x ys

/-- Stable descending sort by `key0`. -/
def sortDesc : List Listing → List Listing
  | [] => []
  | x :: xs => insertDesc x (sortDesc xs)

/-- All sort keys can be computed without raising. -/
def rankKeysOk (sellers : List Listing) : Bool :=
  sellers.all fun ad =>
    match rankKey ad with
    | .ok _ => true
    | .error _ => false

/-- The ranking step of `format_and_send_top_prices` (main.py lines 72-74):
`sorted(sellers, key=..., reverse=True)[:count]`, raising `ValueError` when
any present price string fails to parse. -/
def topByPriceDescending (sellers : List Listing) (count : ℕ) :
    Except PyException (List Listing) :=
  if rankKeysOk sellers then .ok ((sortDesc sellers).take count)
  else .error .valueError

/-! ## main.py: configuration and the seller message renderer -/

/-- `DEFAULT_THRESHOLD = 91`. -/
def DEFAULT_THRESHOLD : ℚ := 91

/-- One numbered entry of the threshold-mode message (the loop body of
`format_and_send_sellers`); absent fields render as "N/A", and a falsy
`userNo` (absent or empty) falls back to the generic marketplace URL. -/
def sellerEntry (idx : ℕ) (ad : Listing) : String :=
  let adv := advOf ad
  let price := adv.price.getD "N/A"
  let available := adv.surplusAmount.getD "N/A"
  let minTrans := adv.minSingleTransAmount.getD "N/A"
  let maxTrans := adv.maxSingleTransAmount.getD "N/A"
  let advertiser := advertiserOf ad
  let nickname := advertiser.nickName.getD "N/A"
  let link :=
    match advertiser.userNo with
    | some u =>
        if u = "" then "https://p2p.binance.com/en"
        else "https://p2p.binance.com/en/advertiserDetail?advertiserNo=" ++ u
    | none => "https://p2p.binance.com/en"
  toString idx ++ ". <b>" ++ price ++ " INR</b> | " ++ available ++ " USDT | "
    ++ nickname ++ "\n"
    ++ "Min: " ++ minTrans ++ " | Max: " ++ maxTrans ++ "\n"
    ++ "<a href=\"" ++ link ++ "\">🔗 View & Buy</a>\n\n"

/-- The concatenated entry lines, numbered from 1 (`enumerate(sellers, 1)`). -/
def sellersBody (sellers : List Listing) : String :=
  String.join ((List.enumFrom 1 sellers).map fun p => sellerEntry p.1 p.2)

/-- The message text built by `format_and_send_sellers` (main.py lines
30-31): the literal no-sellers message when the list is empty, otherwise a
header plus one entry per listing. -/
def formatSellersMessage (sellers : List Listing) (threshold : ℚ) : String :=
  if sellers.isEmpty then
    "⚠️ No sellers found under " ++ toString threshold ++ " INR currently."
  else
    "<b>Top " ++ toString sellers.length ++ " Sellers under " ++ toString threshold
      ++ " INR:</b>\n\n" ++ sellersBody sellers

/-- `format_and_send_sellers`: builds the message and sends it; the `try`
around `bot.send_message` swallows any delivery error, so the function
returns normally either way.  The returned list holds the messages handed
to the delivery layer. -/
def format_and_send_sellers (send : String → Except PyException Unit)
    (sellers : List Listing) (threshold : ℚ) : Except PyException (List String) :=
  match send (formatSellersMessage sellers threshold) with
  | .error _ => .ok [formatSellersMessage sellers threshold]
  | .ok _ => .ok [formatSellersMessage sellers threshold]

/-! ## main.py: the two periodic tasks

Each task wraps its whole body in `try: ... except Exception as e:
logging.error(...)`, so a failure at any stage is logged and the task
returns normally.  The pipeline's fetch outcome and the delivery layer are
passed in as arguments. -/

/-- `periodic_send_default` (main.py lines 104-112): fetch, then always
render-and-send (also the empty case); any exception is caught and logged. -/
def periodic_send_default (fetch : Except PyException (List Listing))
    (send : String → Except PyException Unit) : Except PyException (List String) :=
  match fetch with
  | .error _ => .ok []
  | .ok sellers =>
      match format_and_send_sellers send sellers DEFAULT_THRESHOLD with
      | .error _ => .ok []
      | .ok msgs => .ok msgs

/-- `threshold_check_task` (main.py lines 114-126): fetch; send nothing when
no seller qualifies, otherwise send one message rendering `sellers[:1]`;
any exception is caught and logged. -/
def threshold_check_task (fetch : Except PyException (List Listing))
    (send : String → Except PyException Unit) : Except PyException (List String) :=
  match fetch with
  | .error _ => .ok []
  | .ok sellers =>
      if sellers.isEmpty then .ok []
      else
        match format_and_send_sellers send (sellers.take 1) DEFAULT_THRESHOLD with
        | .error _ => .ok []
        | .ok msgs => .ok msgs

/-! ## main.py: command-argument handling

`top5_command` (lines 145-158) and `topprices_command` (lines 182-195).
Each embedding returns the warning replies sent while parsing together
with the value the rest of the command proceeds with. -/

/-- The warning reply of `top5_command` for an unparsable threshold. -/
def top5WarnMessage (arg : String) : String :=
  "⚠️ Invalid threshold provided: \x27" ++ arg
    ++ "\x27. Using default threshold of " ++ toString DEFAULT_THRESHOLD ++ " INR."

/-- The warning reply of `topprices_command` for an unparsable count. -/
def toppricesWarnMessage (arg : String) : String :=
  "⚠️ Invalid count provided: \x27" ++ arg ++ "\x27. Using default count of 10."

/-- Argument handling of `top5_command`: no argument keeps the default
threshold; `float(args[0].replace(',', ''))` on success becomes the
threshold; on `ValueError` a warning is sent and the default is kept. -/
def top5_command_args (args : List String) : List String × ℚ :=
  match args with
  | [] => ([], DEFAULT_THRESHOLD)
  | a :: _ =>
      match parseFloat (stripCommas a) with
      | some p => ([], p)
      | none => ([top5WarnMessage a], DEFAULT_THRESHOLD)

/-- Argument handling of `topprices_command`: no argument means count 10;
`int(args[0])` on success is silently replaced by 10 when outside (0, 50];
on `ValueError` a warning is sent and 10 is used. -/
def topprices_command_args (args : List String) : List String × ℤ :=
  match args with
  | [] => ([], 10)
  | a :: _ =>
      match parseInt a with
      | some c => ([], if c ≤ 0 ∨ 50 < c then 10 else c)
      | none => ([toppricesWarnMessage a], 10)

/-! ## Concrete listings used by witnesses and counterexamples -/

/-- A listing priced "80". -/
def listing80 : Listing := ⟨some ⟨some "80", none, none, none⟩, none⟩

/-- A listing priced "90". -/
def listing90 : Listing := ⟨some ⟨some "90", none, none, none⟩, none⟩

/-- A listing priced "95". -/
def listing95 : Listing := ⟨some ⟨some "95", none, none, none⟩, none⟩

/-- A listing whose price string does not parse. -/
def listingBad : Listing := ⟨some ⟨some "bad", none, none, none⟩, none⟩

/-- A listing with an empty price string. -/
def listingEmptyPrice : Listing := ⟨some ⟨some "", none, none, none⟩, none⟩

/-- A listing whose price key is absent. -/
def listingNoPrice : Listing := ⟨some ⟨none, none, none, none⟩, none⟩

/-- A second listing priced "80", distinguishable by its advertiser. -/
def listing80b : Listing := ⟨some ⟨some "80", none, none, none⟩, some ⟨some "b", none⟩⟩

/-! ## Properties of the threshold filter -/

theorem filterLoop_eq (threshold : ℚ) (limit : ℕ) (l : List Listing) :
    ∀ acc : List Listing, acc.length < limit →
      filterLoop threshold limit acc l
        = acc ++ (l.filter (qualifies threshold)).take (limit - acc.length) := by
  induction l with
  | nil => intro acc h; simp [filterLoop]
  | cons ad rest ih =>
    intro acc h
    have hne : acc.length ≠ limit := Nat.ne_of_lt h
    cases hp : (advOf ad).price with
    | none =>
        simp [filterLoop, hp, hne, ih acc h, List.filter_cons, qualifies]
    | some s =>
        by_cases hs : s = ""
        · simp [filterLoop, hp, hs, hne, ih acc h, List.filter_cons, qualifies]
        · cases hpf : parseFloat s with
          | none => simp [filterLoop, hp, hs, hpf, ih acc h, List.filter_cons, qualifies]
          | some p =>
            by_cases hpt : p ≤ threshold
            · by_cases hlen : acc.length + 1 = limit
              · have h1 : limit - acc.length = 1 := by omega
                simp [filterLoop, hp, hs, hpf, hpt, hlen, List.filter_cons, qualifies, h1]
              · have h2 : (acc ++ [ad]).length < limit := by
                  simp only [List.length_append, List.length_singleton]; omega
                have h3 : limit - acc.length = (limit - (acc.length + 1)) + 1 := by omega
                simp [filterLoop, hp, hs, hpf, hpt, hlen, ih _ h2, List.filter_cons,
                  qualifies, h3, List.take_succ_cons]
            · simp [filterLoop, hp, hs, hpf, hpt, hne, ih acc h, List.filter_cons, qualifies]

/-- With a positive limit, the filter returns the first `limit` qualifying
listings in upstream order. -/
theorem get_top_eq_take_filter (ads : List Listing) (threshold : ℚ) (limit : ℕ)
    (h : 1 ≤ limit) :
    get_top_sellers_under_threshold ads threshold limit
      = (ads.filter (qualifies threshold)).take limit := by
  have := filterLoop_eq threshold limit ads [] (by simpa using h)
  simpa [get_top_sellers_under_threshold] using this

/-- Unfolding a successful `qualifies` test. -/
theorem qualifies_spec {threshold : ℚ} {ad : Listing} (h : qualifies threshold ad = true) :
    ∃ s p, (advOf ad).price = some s ∧ s ≠ "" ∧ parseFloat s = some p ∧ p ≤ threshold := by
  unfold qualifies at h
  cases hp : (advOf ad).price with
  | none => rw [hp] at h; cases h
  | some s =>
    rw [hp] at h
    by_cases hs : s = ""
    · simp [hs] at h
    · cases hpf : parseFloat s with
      | none => simp [hs, hpf] at h
      | some p =>
          simp [hs, hpf] at h
          exact ⟨s, p, rfl, hs, hpf, h⟩

/-- A malformed listing never qualifies, for any threshold. -/
theorem qualifies_eq_false_of_malformed {ad : Listing}
    (h : malformedListing ad = true) (threshold : ℚ) :
    qualifies threshold ad = false := by
  unfold malformedListing at h
  unfold qualifies
  cases hp : (advOf ad).price with
  | none => rfl
  | some s =>
    rw [hp] at h
    simp only [beq_iff_eq, Bool.or_eq_true, Option.isNone_iff_eq_none] at h
    rcases h with h1 | h1
    · simp [h1]
    · by_cases hse : s = ""
      · simp [hse]
      · simp [hse, h1]

/-- A qualifying listing is not malformed. -/
theorem malformed_eq_false_of_qualifies {threshold : ℚ} {ad : Listing}
    (h : qualifies threshold ad = true) : malformedListing ad = false := by
  obtain ⟨s, p, hp, hs, hpf, _⟩ := qualifies_spec h
  unfold malformedListing
  rw [hp]
  simp [hs, hpf]

/-! ## Properties of the stable descending sort -/

theorem insertDesc_length (x : Listing) (l : List Listing) :
    (insertDesc x l).length = l.length + 1 := by
  induction l with
  | nil => rfl
  | cons y ys ih =>
      unfold insertDesc
      by_cases h : key0 y ≤ key0 x
      · simp [h]
      · simp [h, ih]

theorem sortDesc_length (l : List Listing) : (sortDesc l).length = l.length := by
  induction l with
  | nil => rfl
  | cons x xs ih => simp [sortDesc, insertDesc_length, ih]

theorem mem_insertDesc {a x : Listing} {l : List Listing} :
    a ∈ insertDesc x l ↔ a = x ∨ a ∈ l := by
  induction l with
  | nil => simp [insertDesc]
  | cons y ys ih =>
      unfold insertDesc
      by_cases h : key0 y ≤ key0 x
      · simp [h]
      · simp [h, ih]
        tauto

theorem insertDesc_pairwise {x : Listing} {l : List Listing}
    (h : l.Pairwise (fun a b => key0 b ≤ key0 a)) :
    (insertDesc x l).Pairwise (fun a b => key0 b ≤ key0 a) := by
  induction l with
  | nil => simp [insertDesc]
  | cons y ys ih =>
      rw [List.pairwise_cons] at h
      obtain ⟨hy, hys⟩ := h
      unfold insertDesc
      by_cases hk : key0 y ≤ key0 x
      · rw [if_pos hk]
        refine List.Pairwise.cons ?_ (List.Pairwise.cons hy hys)
        intro b hb
        rcases List.mem_cons.mp hb with rfl | hb
        · exact hk
        · exact le_trans (hy b hb) hk
      · rw [if_neg hk]
        refine List.Pairwise.cons ?_ (ih hys)
        intro b hb
        rcases mem_insertDesc.mp hb with rfl | hb
        · exact le_of_lt (lt_of_not_le hk)
        · exact hy b hb

theorem sortDesc_pairwise (l : List Listing) :
    (sortDesc l).Pairwise (fun a b => key0 b ≤ key0 a) := by
  induction l with
  | nil => exact List.Pairwise.nil
  | cons x xs ih => exact insertDesc_pairwise ih

/-- Stability of the insertion step: the elements of any fixed key keep
their order, with the inserted element (which came first in the input)
in front. -/
theorem insertDesc_filter (k : ℚ) (x : Listing) (l : List Listing) :
    (insertDesc x l).filter (fun a => decide (key0 a = k))
      = if key0 x = k then x :: l.filter (fun a => decide (key0 a = k))
        else l.filter (fun a => decide (key0 a = k)) := by
  induction l with
  | nil => by_cases h : key0 x = k <;> simp [insertDesc, h]
  | cons y ys ih =>
      unfold insertDesc
      by_cases hk : key0 y ≤ key0 x
      · rw [if_pos hk]
        by_cases hx : key0 x = k <;> simp [List.filter_cons, hx]
      · rw [if_neg hk]
        by_cases hx : key0 x = k
        · have hy : ¬ key0 y = k := fun hy => hk (le_of_eq (hy.trans hx.symm))
          simp [List.filter_cons, hx, hy, ih]
        · simp [List.filter_cons, hx, ih]

/-- Stability of the sort: restricted to any one key, the sorted sequence
is the input sequence. -/
theorem sortDesc_filter (k : ℚ) (l : List Listing) :
    (sortDesc l).filter (fun a => decide (key0 a = k))
      = l.filter (fun a => decide (key0 a = k)) := by
  induction l with
  | nil => rfl
  | cons x xs ih =>
      show (insertDesc x (sortDesc xs)).filter _ = _
      rw [insertDesc_filter, ih]
      by_cases hx : key0 x = k <;> simp [hx, List.filter_cons]

theorem rankKeysOk_iff {sellers : List Listing} :
    rankKeysOk sellers = true ↔ ∀ ad ∈ sellers, ∃ p, rankKey ad = Except.ok p := by
  unfold rankKeysOk
  rw [List.all_eq_true]
  constructor
  · intro h ad had
    have hh := h ad had
    cases hr : rankKey ad with
    | ok p => exact ⟨p, rfl⟩
    | error e => rw [hr] at hh; cases hh
  · intro h ad had
    obtain ⟨p, hp⟩ := h ad had
    rw [hp]

/-- C1: with a positive limit, every element of the filter result has a
present, non-empty price string that parses and is at most the threshold,
and the result length is at most the limit; a missing or unparsable price
never appears. -/
theorem C1_filter_sound (ads : List Listing) (threshold : ℚ) (limit : ℕ)
    (h : 1 ≤ limit) :
    (∀ ad ∈ get_top_sellers_under_threshold ads threshold limit,
        ∃ s p, (advOf ad).price = some s ∧ s ≠ "" ∧ parseFloat s = some p ∧ p ≤ threshold)
    ∧ (get_top_sellers_under_threshold ads threshold limit).length ≤ limit := by
  constructor
  · intro ad had
    rw [get_top_eq_take_filter ads threshold limit h] at had
    exact qualifies_spec (List.of_mem_filter (List.mem_of_mem_take had))
  · rw [get_top_eq_take_filter ads threshold limit h]
    exact List.length_take_le _ _

/-- C1 counterexample: at limit 0 the break check `len(filtered_ads) == 0`
is never reached once a listing has been appended, so one qualifying
listing makes the result longer than the limit. -/
theorem C1_limit_zero_cex :
    ¬ (get_top_sellers_under_threshold [listing80] 100 0).length ≤ 0 := by decide

/-- C1 witness. -/
theorem C1_filter_sound_witness :
    1 ≤ 5 ∧
    ((∀ ad ∈ get_top_sellers_under_threshold [listing80, listingBad] 91 5,
        ∃ s p, (advOf ad).price = some s ∧ s ≠ "" ∧ parseFloat s = some p ∧ p ≤ 91)
     ∧ (get_top_sellers_under_threshold [listing80, listingBad] 91 5).length ≤ 5) :=
  ⟨by decide, C1_filter_sound [listing80, listingBad] 91 5 (by decide)⟩

/-- C2: with a positive limit, the filter result is exactly the first
`limit` qualifying listings in upstream order. -/
theorem C2_order_preserving (ads : List Listing) (threshold : ℚ) (limit : ℕ)
    (h : 1 ≤ limit) :
    get_top_sellers_under_threshold ads threshold limit
      = (ads.filter (qualifies threshold)).take limit :=
  get_top_eq_take_filter ads threshold limit h

/-- C2 counterexample: at limit 0 the loop never breaks after an append, so
the result is all qualifying listings instead of the first 0. -/
theorem C2_limit_zero_cex :
    get_top_sellers_under_threshold [listing80, listing90] 100 0
      ≠ (([listing80, listing90].filter (qualifies 100)).take 0) := by decide

/-- C2 witness: with limit 1 the first qualifying listing is returned, not
the cheapest. -/
theorem C2_order_preserving_witness :
    1 ≤ 1 ∧
    get_top_sellers_under_threshold [listing90, listing80] 91 1
      = (([listing90, listing80]).filter (qualifies 91)).take 1 :=
  ⟨by decide, C2_order_preserving [listing90, listing80] 91 1 (by decide)⟩

/-- C10: a malformed listing (missing `adv`, absent or empty price, or an
unparsable price string) is skipped without raising: it never appears in
the result and (for a positive limit) removing it does not change the
result, so it never aborts the batch. -/
theorem C10_malformed_skipped (xs ys : List Listing) (m : Listing) (threshold : ℚ)
    (limit : ℕ) (hm : malformedListing m = true) (h : 1 ≤ limit) :
    get_top_sellers_under_threshold (xs ++ m :: ys) threshold limit
      = get_top_sellers_under_threshold (xs ++ ys) threshold limit
    ∧ ∀ ad ∈ get_top_sellers_under_threshold (xs ++ m :: ys) threshold limit,
        malformedListing ad = false := by
  have hq : qualifies threshold m = false := qualifies_eq_false_of_malformed hm threshold
  constructor
  · rw [get_top_eq_take_filter _ _ _ h, get_top_eq_take_filter _ _ _ h]
    congr 1
    simp [List.filter_append, List.filter_cons, hq]
  · intro ad had
    rw [get_top_eq_take_filter _ _ _ h] at had
    exact malformed_eq_false_of_qualifies (List.of_mem_filter (List.mem_of_mem_take had))

/-- C10 witness. -/
theorem C10_malformed_skipped_witness :
    malformedListing listingBad = true ∧ 1 ≤ 5 ∧
    (get_top_sellers_under_threshold ([listing80] ++ listingBad :: [listing90]) 91 5
       = get_top_sellers_under_threshold ([listing80] ++ [listing90]) 91 5
     ∧ ∀ ad ∈ get_top_sellers_under_threshold ([listing80] ++ listingBad :: [listing90]) 91 5,
         malformedListing ad = false) :=
  ⟨by decide, by decide,
    C10_malformed_skipped [listing80] [listing90] listingBad 91 5 (by decide) (by decide)⟩

/-- C3 (amended): the sort key defaults a missing price to 0, and when every
present price parses (all sort keys compute), the ranking step returns the
first `C` elements of the stable descending sort: length `min C |L|`,
non-increasing keys, and ties keep the upstream relative order. -/
theorem C3_ranker_sorted (L : List Listing) (C : ℕ) (h : rankKeysOk L = true) :
    (∀ ad, (advOf ad).price = none → rankKey ad = Except.ok 0)
    ∧ ∃ r, topByPriceDescending L C = Except.ok r
        ∧ r = (sortDesc L).take C
        ∧ r.length = min C L.length
        ∧ r.Pairwise (fun a b => key0 b ≤ key0 a)
        ∧ ∀ k, (sortDesc L).filter (fun a => decide (key0 a = k))
               = L.filter (fun a => decide (key0 a = k)) := by
  refine ⟨fun ad hp => by unfold rankKey; rw [hp],
    (sortDesc L).take C, ?_, rfl, ?_, ?_, fun k => sortDesc_filter k L⟩
  · unfold topByPriceDescending
    rw [if_pos h]
  · rw [List.length_take, sortDesc_length]
  · exact List.Pairwise.sublist (List.take_sublist C _) (sortDesc_pairwise L)

/-- C3 counterexample: a present but unparsable price string is not
defaulted to 0 — `float("bad")` raises inside `sorted`, so the ranking
step produces no sequence at all. -/
theorem C3_unparsable_raises_cex :
    topByPriceDescending [listingBad] 1 = Except.error PyException.valueError := by
  rfl

/-- C3 witness. -/
theorem C3_ranker_sorted_witness :
    rankKeysOk [listing80, listing95, listing80b, listingNoPrice] = true ∧
    ((∀ ad, (advOf ad).price = none → rankKey ad = Except.ok 0)
     ∧ ∃ r, topByPriceDescending [listing80, listing95, listing80b, listingNoPrice] 3
              = Except.ok r
         ∧ r = (sortDesc [listing80, listing95, listing80b, listingNoPrice]).take 3
         ∧ r.length = min 3 ([listing80, listing95, listing80b, listingNoPrice] : List Listing).length
         ∧ r.Pairwise (fun a b => key0 b ≤ key0 a)
         ∧ ∀ k, (sortDesc [listing80, listing95, listing80b, listingNoPrice]).filter
                  (fun a => decide (key0 a = k))
                = (([listing80, listing95, listing80b, listingNoPrice] : List Listing)).filter
                  (fun a => decide (key0 a = k))) :=
  ⟨by decide, C3_ranker_sorted [listing80, listing95, listing80b, listingNoPrice] 3 (by decide)⟩

/-- C9: whatever count in [1, 50] the user asks for, the listing sequence
handed to the ranked rendering has at most min(count, 5) entries, because
`topprices_command` fetches through `get_top_sellers_under_threshold` with
its default limit 5; the ranking also never raises on this input, since
every listing that passed the threshold filter has a parsable price. -/
theorem C9_topprices_capped (ads : List Listing) (count : ℕ)
    (_h1 : 1 ≤ count) (_h2 : count ≤ 50) :
    ∃ r, topByPriceDescending (get_top_sellers_under_threshold ads 999999 5) count
          = Except.ok r ∧ r.length ≤ min count 5 := by
  have hfive : (1 : ℕ) ≤ 5 := by norm_num
  have hlen : (get_top_sellers_under_threshold ads 999999 5).length ≤ 5 := by
    rw [get_top_eq_take_filter _ _ _ hfive]
    exact List.length_take_le _ _
  have hok : rankKeysOk (get_top_sellers_under_threshold ads 999999 5) = true := by
    rw [rankKeysOk_iff]
    intro ad had
    rw [get_top_eq_take_filter _ _ _ hfive] at had
    obtain ⟨s, p, hp, hsne, hpf, _⟩ :=
      qualifies_spec (List.of_mem_filter (List.mem_of_mem_take had))
    exact ⟨p, by simp [rankKey, hp, hpf]⟩
  refine ⟨(sortDesc (get_top_sellers_under_threshold ads 999999 5)).take count, ?_, ?_⟩
  · unfold topByPriceDescending
    rw [if_pos hok]
  · rw [List.length_take, sortDesc_length]
    exact min_le_min (le_refl count) hlen

/-- C9 witness. -/
theorem C9_topprices_capped_witness :
    1 ≤ 7 ∧ 7 ≤ 50 ∧
    ∃ r, topByPriceDescending
          (get_top_sellers_under_threshold [listing95, listing80, listing90] 999999 5) 7
          = Except.ok r ∧ r.length ≤ min 7 5 :=
  ⟨by decide, by decide,
    C9_topprices_capped [listing95, listing80, listing90] 7 (by decide) (by decide)⟩


theorem format_and_send_sellers_eq (send : String → Except PyException Unit)
    (sellers : List Listing) (threshold : ℚ) :
    format_and_send_sellers send sellers threshold
      = Except.ok [formatSellersMessage sellers threshold] := by
  unfold format_and_send_sellers
  cases send (formatSellersMessage sellers threshold) <;> rfl

/-- C4 cex -/
theorem C4_no_upstream_wrapper_cex :
    fetch_binance_p2p (SessionOutcome.response ⟨200, none⟩)
        = Except.error PyException.decodeError
    ∧ PyException.decodeError ≠ PyException.upstreamError
    ∧ fetch_binance_p2p (SessionOutcome.response ⟨500, some ⟨some []⟩⟩) = Except.ok [] :=
  ⟨rfl, by decide, rfl⟩

/-- C4 amended -/
theorem C4_raw_propagation (s : SessionOutcome) :
    (∀ e, s = SessionOutcome.failure e → fetch_binance_p2p s = Except.error e)
    ∧ (∀ r, s = SessionOutcome.response r → r.jsonBody = none →
          fetch_binance_p2p s = Except.error PyException.decodeError)
    ∧ (∀ r b, s = SessionOutcome.response r → r.jsonBody = some b →
          fetch_binance_p2p s = Except.ok (b.data.getD []))
    ∧ (∀ r, s = SessionOutcome.response r →
          fetch_binance_p2p s ≠ Except.error PyException.upstreamError) := by
  refine ⟨?_, ?_, ?_, ?_⟩
  · rintro e rfl; rfl
  · rintro r rfl hb; simp [fetch_binance_p2p, hb]
  · rintro r b rfl hb; simp [fetch_binance_p2p, hb]
  · rintro r rfl h
    cases hb : r.jsonBody with
    | none => simp [fetch_binance_p2p, hb] at h
    | some b => simp [fetch_binance_p2p, hb] at h

/-- C4 witness -/
theorem C4_raw_propagation_witness :
    fetch_binance_p2p (SessionOutcome.response ⟨404, some ⟨none⟩⟩) = Except.ok []
    ∧ fetch_binance_p2p (SessionOutcome.failure PyException.clientError)
        = Except.error PyException.clientError :=
  ⟨(C4_raw_propagation (SessionOutcome.response ⟨404, some ⟨none⟩⟩)).2.2.1
      ⟨404, some ⟨none⟩⟩ ⟨none⟩ rfl rfl,
   (C4_raw_propagation (SessionOutcome.failure PyException.clientError)).1
      PyException.clientError rfl⟩

/-- C5 -/
theorem C5_fast_alert (ads : List Listing) (send : String → Except PyException Unit) :
    (ads.filter (qualifies 91) = [] →
       threshold_check_task (Except.ok (get_top_sellers_under_threshold ads 91 5)) send
         = Except.ok [])
    ∧ ∀ a t, ads.filter (qualifies 91) = a :: t →
        threshold_check_task (Except.ok (get_top_sellers_under_threshold ads 91 5)) send
          = Except.ok [formatSellersMessage [a] 91] := by
  have h5 : (1:ℕ) ≤ 5 := by norm_num
  have hget := get_top_eq_take_filter ads 91 5 h5
  constructor
  · intro h
    simp [threshold_check_task, hget, h]
  · intro a t h
    simp [threshold_check_task, hget, h, format_and_send_sellers_eq, DEFAULT_THRESHOLD]

/-- C5 witness -/
theorem C5_fast_alert_witness :
    threshold_check_task (Except.ok (get_top_sellers_under_threshold [listingBad] 91 5))
        (fun _ => Except.ok ()) = Except.ok []
    ∧ threshold_check_task
        (Except.ok (get_top_sellers_under_threshold [listing95, listing80, listing90] 91 5))
        (fun _ => Except.ok ())
        = Except.ok [formatSellersMessage [listing80] 91] :=
  ⟨(C5_fast_alert [listingBad] (fun _ => Except.ok ())).1 (by decide),
   (C5_fast_alert [listing95, listing80, listing90] (fun _ => Except.ok ())).2
      listing80 [listing90] (by decide)⟩

/-- C7 -/
theorem C7_tasks_never_raise (fetch : Except PyException (List Listing))
    (send : String → Except PyException Unit) :
    (periodic_send_default fetch send).isOk = true
    ∧ (threshold_check_task fetch send).isOk = true
    ∧ (∀ e, fetch = Except.error e →
         periodic_send_default fetch send = Except.ok []
         ∧ threshold_check_task fetch send = Except.ok []) := by
  refine ⟨?_, ?_, ?_⟩
  · cases fetch with
    | error e => rfl
    | ok sellers => simp [periodic_send_default, format_and_send_sellers_eq, Except.isOk, Except.toBool]
  · cases fetch with
    | error e => rfl
    | ok sellers =>
        cases sellers with
        | nil => rfl
        | cons a l => simp [threshold_check_task, format_and_send_sellers_eq, Except.isOk, Except.toBool]
  · rintro e rfl
    exact ⟨rfl, rfl⟩

/-- C7 witness -/
theorem C7_tasks_never_raise_witness :
    periodic_send_default (Except.error PyException.clientError)
        (fun _ => Except.error PyException.deliveryError) = Except.ok []
    ∧ threshold_check_task (Except.error PyException.clientError)
        (fun _ => Except.error PyException.deliveryError) = Except.ok [] :=
  (C7_tasks_never_raise (Except.error PyException.clientError)
      (fun _ => Except.error PyException.deliveryError)).2.2 PyException.clientError rfl

/-- C6 -/
theorem C6_command_args (a b : String) (c : ℤ)
    (h1 : parseFloat (stripCommas a) = none)
    (h2 : parseInt a = none)
    (h3 : parseInt b = some c) (h4 : c ≤ 0 ∨ 50 < c) :
    top5_command_args [a] = ([top5WarnMessage a], DEFAULT_THRESHOLD)
    ∧ topprices_command_args [a] = ([toppricesWarnMessage a], 10)
    ∧ topprices_command_args [b] = ([], 10) := by
  refine ⟨?_, ?_, ?_⟩
  · simp [top5_command_args, h1]
  · simp [topprices_command_args, h2]
  · simp [topprices_command_args, h3, if_pos h4]

/-- C6 witness -/
theorem C6_command_args_witness :
    parseFloat (stripCommas "abc") = none ∧ parseInt "abc" = none
    ∧ parseInt "1000" = some 1000 ∧ ((1000:ℤ) ≤ 0 ∨ 50 < (1000:ℤ))
    ∧ (top5_command_args ["abc"] = ([top5WarnMessage "abc"], DEFAULT_THRESHOLD)
       ∧ topprices_command_args ["abc"] = ([toppricesWarnMessage "abc"], 10)
       ∧ topprices_command_args ["1000"] = ([], 10)) :=
  ⟨by decide, by decide, by decide, by decide,
    C6_command_args "abc" "1000" 1000 (by decide) (by decide) (by decide) (by decide)⟩

/-- C8 -/
theorem C8_empty_render (threshold : ℚ) (send : String → Except PyException Unit) :
    formatSellersMessage [] threshold
      = "⚠️ No sellers found under " ++ toString threshold ++ " INR currently."
    ∧ format_and_send_sellers send [] threshold
      = Except.ok ["⚠️ No sellers found under " ++ toString threshold ++ " INR currently."]
    ∧ formatSellersMessage [] threshold ≠ "" := by
  refine ⟨rfl, format_and_send_sellers_eq send [] threshold, ?_⟩
  intro h
  rw [show formatSellersMessage ([] : List Listing) threshold
        = "⚠️ No sellers found under " ++ toString threshold ++ " INR currently." from rfl] at h
  have hl := congrArg String.length h
  rw [String.length_append, String.length_append] at hl
  have hpos : 0 < ("⚠️ No sellers found under ").length := by decide
  simp at hl
  omega

end BTelBot
